import Mathlib

/-!
Verification of the reconciliation-and-load ETL pipeline
(`genomma_descargas`): a shallow embedding of the pure data-shape
operations of the repository, with theorems settling the frozen claims
about header normalization, column disambiguation, EAN enrichment,
table-name resolution, the date-bounded extraction query, the fallback
dispatcher, the backup-and-replace loader and the orchestrator's exit
status.

Python strings are modelled as Lean `String` / `List Char`.  Unicode
NFKD decomposition is modelled by a finite table covering the Latin
accented letters that occur in the repository's data (NFKD is the
identity on the code points below U+00C0 that these files use); all
other characters decompose to themselves.
-/

namespace Genomma

/-! ## Character-level utilities shared by the header normalizer
    (`etl/2_normalizar_headers.py`) and the table-name resolver
    (`etl/4_cargar_snowflake.py`). -/

/-- Combining diacritical marks: the block U+0300–U+036F dropped by
`unicodedata.combining` filtering in both normalizers. -/
def esCombinante (c : Char) : Bool :=
  0x300 ≤ c.toNat && c.toNat ≤ 0x36F

/-- Finite model of `unicodedata.normalize('NFKD', ·)` at the character
level: the Spanish accented letters decompose into base letter plus
combining mark; every other character (in particular all ASCII and the
decorative emoji) decomposes to itself. -/
def nfkdChar (c : Char) : List Char :=
  if c.toNat < 0xC0 then [c]
  else match c with
    | 'Á' => ['A', '́'] | 'É' => ['E', '́'] | 'Í' => ['I', '́']
    | 'Ó' => ['O', '́'] | 'Ú' => ['U', '́'] | 'Ü' => ['U', '̈']
    | 'Ñ' => ['N', '̃']
    | 'á' => ['a', '́'] | 'é' => ['e', '́'] | 'í' => ['i', '́']
    | 'ó' => ['o', '́'] | 'ú' => ['u', '́'] | 'ü' => ['u', '̈']
    | 'ñ' => ['n', '̃']
    | _ => [c]

/-- `unicodedata.normalize('NFKD', s)` followed by dropping the
combining marks, as done in both `normalizar_header` and
`normalizar_nombre_tabla`. -/
def quitarAcentos (l : List Char) : List Char :=
  (l.flatMap nfkdChar).filter (fun c => !(esCombinante c))

/-- Whitespace stripped by Python `str.strip()` (ASCII whitespace). -/
def pyEsEspacio (c : Char) : Bool :=
  c == ' ' || c == '\t' || c == '\n' || c == '\r' ||
  c.toNat == 11 || c.toNat == 12

/-- Python `str.strip()`. -/
def pyStrip (l : List Char) : List Char :=
  ((l.dropWhile pyEsEspacio).reverse.dropWhile pyEsEspacio).reverse

/-- Python `str.strip('_')`. -/
def stripGuionesBajos (l : List Char) : List Char :=
  ((l.dropWhile (· == '_')).reverse.dropWhile (· == '_')).reverse

/-- Fixpoint of the loop `while '__' in s: s = s.replace('__', '_')`
used by both normalizers: every run of underscores collapses to a
single underscore. -/
def colapsarGuiones : List Char → List Char
  | [] => []
  | [c] => [c]
  | a :: b :: r =>
    if a == '_' && b == '_' then colapsarGuiones (b :: r)
    else a :: colapsarGuiones (b :: r)

/-- The three `str.replace` calls of `normalizar_header`: space, period
and hyphen each become an underscore. -/
def reemplazarSeparador (c : Char) : Char :=
  if c == ' ' || c == '.' || c == '-' then '_' else c

/-- Python `str.upper()` at the character level (ASCII model, in line
with the finite Unicode model above: the accented letters have already
been decomposed by the time the uppercase step runs). -/
def pyToUpper (c : Char) : Char :=
  if 97 ≤ c.toNat && c.toNat ≤ 122 then Char.ofNat (c.toNat - 32) else c

/-! ## Header Normalizer (`etl/2_normalizar_headers.py`) -/

/-- The fixed mapping `MAPEO_HEADERS` (module-level dictionary). -/
def MAPEO_HEADERS : List (String × String) :=
  [("Rebate", "REBATE"), ("Rebate Fact.", "REBATE_FACT"),
   ("Estado Documento", "ESTADO_DOCUMENTO"), ("Estado Anulado", "ESTADO_ANULADO"),
   ("Tipo", "TIPO"), ("Concepto", "CONCEPTO"), ("Codigo", "CODIGO"),
   ("Direccion", "DIRECCION"), ("Serie", "SERIE"), ("Correlativo", "CORRELATIVO"),
   ("Marca", "MARCA"), ("EAN", "EAN"), ("Codigo Producto", "CODIGO_PRODUCTO"),
   ("Nombre Producto", "NOMBRE_PRODUCTO"), ("Categoria", "CATEGORIA"),
   ("Numero Cliente", "NUMERO_CLIENTE"), ("Nombre Cliente", "NOMBRE_CLIENTE"),
   ("Clase Cliente", "CLASE_CLIENTE"), ("Cod. Cliente", "COD_CLIENTE"),
   ("Nombre", "NOMBRE"), ("Razon", "RAZON_SOCIAL"), ("Razón Social", "RAZON_SOCIAL"),
   ("RUC", "RUC"), ("RFC", "RFC"), ("NIT", "NIT"), ("DNI", "DNI"),
   ("Cantidad", "CANTIDAD"), ("Precio", "PRECIO"), ("Subtotal", "SUBTOTAL"),
   ("Descuento", "DESCUENTO"), ("Total", "TOTAL"), ("Fecha", "FECHA"),
   ("Fecha Emision", "FECHA_EMISION"), ("Fecha Vencimiento", "FECHA_VENCIMIENTO"),
   ("Moneda", "MONEDA"), ("TC", "TIPO_CAMBIO"), ("Almacen", "ALMACEN"),
   ("Vendedor", "VENDEDOR"), ("Zona", "ZONA"), ("Region", "REGION"),
   ("Pais", "PAIS"), ("Ciudad", "CIUDAD"), ("Departamento", "DEPARTAMENTO"),
   ("Provincia", "PROVINCIA"), ("Distrito", "DISTRITO"), ("Comuna", "COMUNA"),
   ("Telefono", "TELEFONO"), ("Email", "EMAIL"), ("Estado", "ESTADO"),
   ("Observaciones", "OBSERVACIONES"), ("Usuario", "USUARIO"), ("Glosa", "GLOSA")]

/-- The generic (non-dictionary) path of `normalizar_header`: strip,
NFKD + drop combining marks, replace space/period/hyphen with
underscore, uppercase, collapse repeated underscores, strip edge
underscores. -/
def normalizarGenerico (header : String) : String :=
  let l := pyStrip header.data
  let l := quitarAcentos l
  let l := l.map reemplazarSeparador
  let l := l.map pyToUpper
  let l := colapsarGuiones l
  let l := stripGuionesBajos l
  String.mk l

/-- `normalizar_header` (etl/2_normalizar_headers.py:108-145): fixed
mapping first, generic transliteration otherwise. -/
def normalizar_header (header : String) : String :=
  match MAPEO_HEADERS.find? (fun kv => kv.1 == header) with
  | some kv => kv.2
  | none => normalizarGenerico header

/-! ## Table-Name Resolver (`etl/4_cargar_snowflake.py:102-130`) -/

/-- Python `str.replace(pat, "")`: removes every (non-overlapping,
left-to-right) occurrence of `pat`.  Structural recursion on a fuel
argument (one unit per input position) so the definition evaluates by
kernel reduction; `quitarOcurrencias` supplies enough fuel. -/
def quitarOcAux (pat : List Char) : Nat → List Char → List Char
  | 0, l => l
  | _ + 1, [] => []
  | fuel + 1, c :: rest =>
    if pat ≠ [] && pat.isPrefixOf (c :: rest) then
      quitarOcAux pat fuel ((c :: rest).drop pat.length)
    else c :: quitarOcAux pat fuel rest

/-- Python `str.replace(pat, "")`. -/
def quitarOcurrencias (pat : List Char) (l : List Char) : List Char :=
  quitarOcAux pat l.length l

/-- `normalizar_nombre_tabla`: remove the `_normalizado.csv` suffix,
strip accents (NFKD + drop combining), replace every character that is
neither alphanumeric nor underscore by an underscore, collapse repeated
underscores, uppercase, strip edge underscores.  The `pais` argument is
accepted but unused, exactly as in the source. -/
def normalizar_nombre_tabla (nombre_archivo : String) (pais : String) : String :=
  let nombre := quitarOcurrencias "_normalizado.csv".data nombre_archivo.data
  let nombre := quitarAcentos nombre
  let limpio := nombre.map (fun c => if c.isAlphanum || c == '_' then c else '_')
  let limpio := colapsarGuiones limpio
  let limpio := limpio.map pyToUpper
  let limpio := stripGuionesBajos limpio
  String.mk limpio

/-! ## Tabular data model

An `Extract` (pandas `DataFrame`) is an ordered sequence of column
labels plus rows of string cells.  Pandas `df.empty` is true when any
axis has length zero. -/

structure DataFrame where
  cols : List String
  rows : List (List String)
deriving DecidableEq, Repr

/-- Pandas `df.empty`. -/
def DataFrame.vacio (df : DataFrame) : Bool :=
  df.rows.isEmpty || df.cols.isEmpty

/-! ## Column Disambiguator, downloader version
(`etl/1_descargar_sql_server.py:189-212`, `desambiguar_columnas`):
scan left to right with a per-label counter dictionary; the first
occurrence keeps its label, the k-th repeat becomes `label_k`. -/

/-- Dictionary read: first entry with the given key. -/
def dictFind (m : List (String × Nat)) (k : String) : Option (String × Nat) :=
  m.find? (fun e => e.1 == k)

/-- Dictionary write: update the value stored under an existing key. -/
def dictSet (m : List (String × Nat)) (k : String) (v : Nat) : List (String × Nat) :=
  m.map (fun e => if e.1 == k then (k, v) else e)

/-- The loop of `desambiguar_columnas` building `nuevas_columnas` from
the counter dictionary `contadores`. -/
def nuevasColumnasGo (contadores : List (String × Nat)) : List String → List String
  | [] => []
  | c :: rest =>
    match dictFind contadores c with
    | some e =>
      (c ++ "_" ++ toString (e.2 + 1)) :: nuevasColumnasGo (dictSet contadores c (e.2 + 1)) rest
    | none => c :: nuevasColumnasGo ((c, 0) :: contadores) rest

/-- The disambiguated label sequence of `desambiguar_columnas`. -/
def nuevasColumnas (columnas : List String) : List String :=
  nuevasColumnasGo [] columnas

/-- `desambiguar_columnas`: returns the frame unchanged when
`df.empty`; otherwise relabels the columns (the source assigns
`df.columns` only when some label changed, which yields the same
frame either way). -/
def desambiguar_columnas (df : DataFrame) : DataFrame :=
  if df.vacio then df
  else
    let nuevas := nuevasColumnas df.cols
    if nuevas == df.cols then df else { df with cols := nuevas }

/-! ## Column Disambiguator, dashboard version
(`app_reportes_sql.py:961-982`, `normalizar_columnas_duplicadas`):
for each label that pandas `duplicated()` marks (taken in first-seen
order from the original labels), re-scan the current labels and rename
its second and later occurrences to `label_1`, `label_2`, …  The
re-scan sees the renames performed for earlier duplicated labels. -/

/-- Values of `cols[cols.duplicated()]`: each label at a position that
has an earlier equal occurrence. -/
def valoresDuplicados (vistos : List String) : List String → List String
  | [] => []
  | c :: rest =>
    if c ∈ vistos then c :: valoresDuplicados vistos rest
    else valoresDuplicados (c :: vistos) rest

/-- Pandas `.unique()`: deduplicate keeping the first occurrence. -/
def unicosPrimero (vistos : List String) : List String → List String
  | [] => []
  | c :: rest =>
    if c ∈ vistos then unicosPrimero vistos rest
    else c :: unicosPrimero (c :: vistos) rest

/-- The list `cols[cols.duplicated()].unique()` the dashboard loop
iterates over. -/
def listaDuplicados (cols : List String) : List String :=
  unicosPrimero [] (valoresDuplicados [] cols)

/-- One iteration of the dashboard loop for the duplicated label `d`:
`dup_indices = cols[cols == d].index` and
`for i, idx in enumerate(dup_indices[1:], start=1): cols[idx] = d_i`.
`vistos` counts the matches of `d` already passed. -/
def renombrarDupGo (d : String) (vistos : Nat) : List String → List String
  | [] => []
  | c :: rest =>
    if c == d then
      (if vistos == 0 then c else c ++ "_" ++ toString vistos) ::
        renombrarDupGo d (vistos + 1) rest
    else c :: renombrarDupGo d vistos rest

/-- Rename the second and later occurrences of `d` in the current
label list. -/
def renombrarDup (cols : List String) (d : String) : List String :=
  renombrarDupGo d 0 cols

/-- The label sequence produced by `normalizar_columnas_duplicadas`. -/
def columnasPandas (cols : List String) : List String :=
  (listaDuplicados cols).foldl renombrarDup cols

/-- `normalizar_columnas_duplicadas` (no emptiness check: the
dashboard version always rewrites `df.columns`). -/
def normalizar_columnas_duplicadas (df : DataFrame) : DataFrame :=
  { df with cols := columnasPandas df.cols }

/-! ## EAN Enrichment Join
(`etl/1_descargar_sql_server.py:215-292` and
`app_reportes_sql.py:263-375`, `agregar_columna_ean`, identical logic).

A detail row is its product-code cell plus the rest of the row
(carried opaquely); the lookup is the list of
`(RTRIM(cProducto), RTRIM(cProductoEquiv))` pairs returned by the
`SELECT DISTINCT … WHERE cEquivalencia = 'EAN12' AND cPais = …` query.
Both sides of the join key are re-stripped with pandas `str.strip()`
before the `how='left'` merge; misses are filled with `''`. -/

/-- One input row: product-code cell and the remaining cells. -/
structure FilaDet where
  codigo : String
  resto : List String
deriving DecidableEq, Repr

/-- Pandas `DataFrame.merge(…, how='left')` on the stripped key,
followed by `df['EAN'].fillna('')`: each input row is emitted once per
matching lookup row (in lookup order), or once with `EAN = ""` when no
lookup row matches. -/
def mergeEanIzq (filas : List FilaDet) (lookup : List (String × String)) :
    List (FilaDet × String) :=
  filas.flatMap (fun fila =>
    let coincidencias :=
      lookup.filter (fun par => pyStrip par.1.data == pyStrip fila.codigo.data)
    if coincidencias.isEmpty then [(fila, "")]
    else coincidencias.map (fun par => (fila, par.2)))

/-- `agregar_columna_ean`: when no product-code column was found, the
connection failed, or the lookup query returned nothing, every row gets
`EAN = ''`; otherwise the left merge above runs.  (The DISTINCT
deduplication of the SQL query removes duplicate pairs, not duplicate
codes.) -/
def agregar_columna_ean (colProductoEncontrada conexionOk : Bool)
    (filas : List FilaDet) (lookup : List (String × String)) :
    List (FilaDet × String) :=
  if !colProductoEncontrada || !conexionOk || lookup.isEmpty then
    filas.map (fun fila => (fila, ""))
  else
    mergeEanIzq filas lookup

/-! ## Date model and the bounded extraction query
(`etl/1_descargar_sql_server.py:374-471`, `descargar_tabla`).

`datetime.now() - timedelta(days=36*30)` is modelled by stepping a
proleptic-Gregorian date back one calendar day at a time, 1080 times;
`strftime('%Y-%m-%d')` by zero-padded formatting. -/

structure Fecha where
  anio : Nat
  mes : Nat
  dia : Nat
deriving DecidableEq, Repr

def esBisiesto (a : Nat) : Bool :=
  (a % 4 == 0 && a % 100 != 0) || a % 400 == 0

def diasEnMes (a m : Nat) : Nat :=
  if m == 2 then (if esBisiesto a then 29 else 28)
  else if m == 4 || m == 6 || m == 9 || m == 11 then 30
  else 31

/-- The calendar day before `f` (used to cross-check the rata-die
conversions below). -/
def diaAnterior (f : Fecha) : Fecha :=
  if f.dia > 1 then ⟨f.anio, f.mes, f.dia - 1⟩
  else if f.mes > 1 then ⟨f.anio, f.mes - 1, diasEnMes f.anio (f.mes - 1)⟩
  else ⟨f.anio - 1, 12, 31⟩

/-- Proleptic-Gregorian day number of `f` (days since 0000-03-01,
standard civil-calendar conversion). -/
def diasDesdeCivil (f : Fecha) : Nat :=
  let y := if f.mes ≤ 2 then f.anio - 1 else f.anio
  let era := y / 400
  let yoe := y % 400
  let mp := if f.mes > 2 then f.mes - 3 else f.mes + 9
  let doy := (153 * mp + 2) / 5 + f.dia - 1
  let doe := yoe * 365 + yoe / 4 - yoe / 100 + doy
  era * 146097 + doe

/-- Inverse of `diasDesdeCivil`. -/
def civilDesdeDias (z : Nat) : Fecha :=
  let era := z / 146097
  let doe := z % 146097
  let yoe := (doe - doe / 1460 + doe / 36524 - doe / 146096) / 365
  let y := yoe + era * 400
  let doy := doe - (365 * yoe + yoe / 4 - yoe / 100)
  let mp := (5 * doy + 2) / 153
  let d := doy - (153 * mp + 2) / 5 + 1
  let m := if mp < 10 then mp + 3 else mp - 9
  ⟨(if m ≤ 2 then y + 1 else y), m, d⟩

/-- `f - timedelta(days=n)`: exact calendar-day subtraction. -/
def restarDias (f : Fecha) (n : Nat) : Fecha :=
  civilDesdeDias (diasDesdeCivil f - n)

/-- Zero-pad a number to two digits (`%m`, `%d`). -/
def dosDigitos (n : Nat) : String :=
  if n < 10 then "0" ++ toString n else toString n

/-- Zero-pad a year to four digits (`%Y`). -/
def cuatroDigitos (n : Nat) : String :=
  if n < 10 then "000" ++ toString n
  else if n < 100 then "00" ++ toString n
  else if n < 1000 then "0" ++ toString n
  else toString n

/-- `strftime('%Y-%m-%d')`. -/
def formatoFecha (f : Fecha) : String :=
  cuatroDigitos f.anio ++ "-" ++ dosDigitos f.mes ++ "-" ++ dosDigitos f.dia

/-- `fecha_inicio = (datetime.now() - timedelta(days=36*30)).strftime('%Y-%m-%d')`. -/
def fechaInicioLiteral (ahora : Fecha) : String :=
  formatoFecha (restarDias ahora (36 * 30))

/-- The fixed list `TABLAS_BASE`. -/
def TABLAS_BASE : List String :=
  ["movGC_DocumentoxDistribucion", "movGC_vtDocumentoVtaCab",
   "movGC_vtDocumentoVtaDet", "maeGC_ProductoEquiv", "maeGC_cfEstado",
   "maeGC_cfTipoDocumento", "RM00101", "RM00201", "maeGC_cfConcepto",
   "maeGC_Producto", "maeGC_Marca"]

/-- The shared EAN-lookup common table expression of the two
detail-table queries. -/
def cteEanLookup (codigoPais : String) : String :=
  "\n                WITH EAN_LOOKUP AS (\n                    SELECT \n                        RTRIM(cProducto) AS cProducto,\n                        RTRIM(cProductoEquiv) AS EAN\n                    FROM dbo.maeGC_ProductoEquiv WITH (NOLOCK)\n                    WHERE cEquivalencia = 'EAN12' \n                        AND cPais = '" ++ codigoPais ++ "'\n                )\n                SELECT \n                    d.*,\n                    COALESCE(e.EAN, '') AS EAN\n                FROM "

/-- The query text `descargar_tabla` executes, by the same four-way
branch as the source: special CTE query for `movGC_vtDocumentoVtaDet`
(bounded or not), generic bounded query when a date column was
detected, unbounded `SELECT *` otherwise. -/
def construirQuery (tabla codigoPais : String) (columnaFecha : Option String)
    (ahora : Fecha) : String :=
  if String.mk (tabla.data.map pyToUpper) == "MOVGC_VTDOCUMENTOVTADET" then
    match columnaFecha with
    | some col =>
      cteEanLookup codigoPais ++ tabla ++
        " d WITH (NOLOCK, INDEX(0))\n                LEFT JOIN EAN_LOOKUP e ON RTRIM(d.cProductoVta) = e.cProducto\n                WHERE d." ++
        col ++ " >= '" ++ fechaInicioLiteral ahora ++
        "'\n                OPTION (MAXDOP 4, OPTIMIZE FOR UNKNOWN)\n                "
    | none =>
      cteEanLookup codigoPais ++ tabla ++
        " d WITH (NOLOCK, INDEX(0))\n                LEFT JOIN EAN_LOOKUP e ON RTRIM(d.cProductoVta) = e.cProducto\n                OPTION (MAXDOP 4)\n                "
  else
    match columnaFecha with
    | some col =>
      "\n            SELECT * \n            FROM " ++ tabla ++
        " WITH (NOLOCK, INDEX(0))\n            WHERE " ++ col ++ " >= '" ++
        fechaInicioLiteral ahora ++
        "'\n            OPTION (MAXDOP 4, OPTIMIZE FOR UNKNOWN)\n            "
    | none =>
      "\n            SELECT * FROM " ++ tabla ++
        " WITH (NOLOCK, INDEX(0))\n            OPTION (MAXDOP 4)\n            "

/-- Substring test used to state (un)boundedness of query text. -/
def contieneSub (pat : List Char) : List Char → Bool
  | [] => pat.isEmpty
  | c :: rest => pat.isPrefixOf (c :: rest) || contieneSub pat rest

/-! ## Fallback Dispatcher
(`app_reportes_sql.py:192-260` `ejecutar_sp` and
`app_reportes_sql.py:1423-1448` `ejecutar_con_fallback`).

The driver-level outcome of the stored-procedure call is either a
result set or a failure (a raised exception with its message, or a
failed connection).  `ejecutar_sp` displays a warning chosen by
message inspection but returns `None` for every failure kind alike;
its success-path post-processing (column disambiguation, EAN
enrichment) is the separately modelled functions above and is carried
opaquely here. -/

inductive ResultadoSp where
  | filas (df : DataFrame)
  | errorMsg (msg : String)
  | conexionFallida
deriving DecidableEq, Repr

/-- Python `str.lower()` at the character level (ASCII model). -/
def pyToLower (c : Char) : Char :=
  if 65 ≤ c.toNat && c.toNat ≤ 90 then Char.ofNat (c.toNat + 32) else c

/-- The message test of `ejecutar_sp`'s `except` branch (used only to
pick which warning to display). -/
def esSpNoEncontrado (msg : String) : Bool :=
  contieneSub "could not find stored procedure".data (msg.data.map pyToLower)

/-- `ejecutar_sp`: a `DataFrame` on success, `None` on every failure. -/
def ejecutar_sp (resultado : ResultadoSp) : Option DataFrame :=
  match resultado with
  | .filas df => some df
  | .errorMsg _ => none
  | .conexionFallida => none

/-- `ejecutar_con_fallback`: run the stored procedure; if it returned
`None` and a fallback is supplied, call the fallback once with
`(pais, *params)` (the fallback's own failure is absorbed to `None` by
the `except` around it).  The second component logs the argument list
of each fallback invocation. -/
def ejecutar_con_fallback (resultado : ResultadoSp) (pais : String)
    (params : List String)
    (funcAlternativa : Option (String → List String → Option DataFrame)) :
    Option DataFrame × List (String × List String) :=
  match ejecutar_sp resultado, funcAlternativa with
  | none, some f => (f pais params, [(pais, params)])
  | df, _ => (df, [])

/-! ## Backup-and-Replace Loader
(`etl/4_cargar_snowflake.py:177-227`, `crear_tabla_snowflake`).

The warehouse schema is a list of `(table name, table version)`
entries; the version stands for the table's contents.  The loader's
SQL effects: `SHOW TABLES LIKE`, `DROP TABLE IF EXISTS`,
`ALTER TABLE … RENAME TO`, `CREATE TABLE`. -/

abbrev Esquema := List (String × Nat)

/-- `SHOW TABLES LIKE '<t>'` returned a row. -/
def tablaExiste (s : Esquema) (t : String) : Bool :=
  s.any (fun e => e.1 == t)

/-- `DROP TABLE IF EXISTS <t>`. -/
def dropTable (s : Esquema) (t : String) : Esquema :=
  s.filter (fun e => !(e.1 == t))

/-- `ALTER TABLE <t> RENAME TO <t2>`. -/
def renameTable (s : Esquema) (t t2 : String) : Esquema :=
  s.map (fun e => if e.1 == t then (t2, e.2) else e)

/-- `CREATE TABLE <t>` holding version `v`. -/
def createTable (s : Esquema) (t : String) (v : Nat) : Esquema :=
  s ++ [(t, v)]

/-- `crear_tabla_snowflake`: if the table exists, first drop any
pre-existing `<t>_OLD`, then rename the live table to `<t>_OLD`, and
only then create the new table; otherwise just create it. -/
def crear_tabla_snowflake (s : Esquema) (tabla : String) (v : Nat) : Esquema :=
  if tablaExiste s tabla then
    let s1 := dropTable s (tabla ++ "_OLD")
    let s2 := renameTable s1 tabla (tabla ++ "_OLD")
    createTable s2 tabla v
  else
    createTable s tabla v

/-- N consecutive successful loads of versions `vs` into `tabla`. -/
def cargas (s : Esquema) (tabla : String) (vs : List Nat) : Esquema :=
  vs.foldl (fun st v => crear_tabla_snowflake st tabla v) s

/-- Number of tables named `t` in the schema. -/
def cuentaTabla (s : Esquema) (t : String) : Nat :=
  (s.filter (fun e => e.1 == t)).length

/-- The version held by the (first) table named `t`. -/
def versionTabla (s : Esquema) (t : String) : Option Nat :=
  (s.find? (fun e => e.1 == t)).map (fun e => e.2)

/-! ## Pipeline Orchestrator (`pipeline_maestro.py:194-341`).

`ejecutar_pipeline` filters the step list by `--step`, runs the steps
(skipping step 3 in dry-run mode), counts successes and failures, may
stop early when the interactive prompt is answered with anything but
`'s'`, and then returns; the only `sys.exit(1)` calls are for the
configuration check and an invalid `--step`.  `main` returns normally,
so the process exit status is 0 whenever the pipeline loop ran. -/

/-- The step loop: `resultado` gives each step's success, `continuar`
the (fixed) answer to the continue prompt.  Returns
`(exitosos, fallidos)`. -/
def ejecutarPasos (dryRun : Bool) (resultado : Nat → Bool) (continuar : Bool)
    (numPasos : Nat) : List Nat → Nat × Nat → Nat × Nat
  | [], acc => acc
  | p :: rest, (ex, fa) =>
    if dryRun && p == 3 then ejecutarPasos dryRun resultado continuar numPasos rest (ex, fa)
    else if resultado p then
      ejecutarPasos dryRun resultado continuar numPasos rest (ex + 1, fa)
    else if !dryRun && fa + 1 < numPasos && !continuar then (ex, fa + 1)
    else ejecutarPasos dryRun resultado continuar numPasos rest (ex, fa + 1)

/-- `ejecutar_pipeline` observed through the process exit status it
leads to, plus the counters of its run summary: exit 1 on
configuration failure or invalid step selection, exit 0 otherwise —
regardless of the step outcomes. -/
def ejecutar_pipeline (configOk dryRun : Bool) (soloPaso : Option Nat)
    (resultado : Nat → Bool) (continuar : Bool) : Nat × Nat × Nat :=
  if !configOk then (1, 0, 0)
  else
    let pasos := match soloPaso with
      | some p => [1, 2, 3].filter (fun n => n == p)
      | none => [1, 2, 3]
    if soloPaso.isSome && pasos.isEmpty then (1, 0, 0)
    else
      let conteo := ejecutarPasos dryRun resultado continuar pasos.length pasos (0, 0)
      (0, conteo.1, conteo.2)

/-! ## Canonical normalized labels (used to state the amended
idempotence of the Header Normalizer, claim C9). -/

/-- Characters of a canonical normalized label: ASCII uppercase
letters, digits, underscore. -/
def esCharCanonico (c : Char) : Bool :=
  (65 ≤ c.toNat && c.toNat ≤ 90) || (48 ≤ c.toNat && c.toNat ≤ 57) || c.toNat == 95

/-- Adjacent doubled underscore somewhere in the character list. -/
def tieneDobleGuion : List Char → Bool
  | [] => false
  | [_] => false
  | a :: b :: r => (a == '_' && b == '_') || tieneDobleGuion (b :: r)

/-- Canonical normalized label: only uppercase/digit/underscore
characters, no doubled underscore, no edge underscore, and not the
string `TC` — the one fixed-mapping key that is reachable as a
normalizer output yet mapped to a different value (`TIPO_CAMBIO`). -/
def esCanonico (s : String) : Bool :=
  !(s == "TC") && s.data.all esCharCanonico && !(tieneDobleGuion s.data) &&
  !(s.data.head? == some '_') && !(s.data.getLast? == some '_')

/-! ## Closed forms used to compare the two disambiguation
implementations (claim C10). -/

/-- The disambiguated value of a label given the labels already seen:
unchanged on a first occurrence, `label_k` on the k-th repeat. -/
def valorCf (prev : List String) (c : String) : String :=
  if prev.count c == 0 then c else c ++ "_" ++ toString (prev.count c)

/-- Occurrence-count closed form of disambiguation. -/
def formaCerradaGo (prev : List String) : List String → List String
  | [] => []
  | c :: rest => valorCf prev c :: formaCerradaGo (prev ++ [c]) rest

/-- Occurrence-count closed form of disambiguation, from the start. -/
def formaCerrada (cols : List String) : List String :=
  formaCerradaGo [] cols

/-- Labels with the duplicated labels of `D` already renamed to their
closed form and all other labels untouched. -/
def parcialGo (D : List String) (prev : List String) : List String → List String
  | [] => []
  | c :: rest => (if c ∈ D then valorCf prev c else c) :: parcialGo D (prev ++ [c]) rest

/-- No label of the list equals a numeric-suffixed variant
`d ++ "_" ++ k` (1 ≤ k ≤ length) of a label of the list — the condition
under which the dashboard's successive rename passes cannot interfere
with one another. -/
def buenasEtiquetas (cols : List String) : Bool :=
  cols.all (fun l => cols.all (fun d =>
    (List.range cols.length).all (fun k => !(l == d ++ "_" ++ toString (k + 1)))))

/-! ## Concrete fixtures used by witnesses and counterexamples -/

/-- A concrete fallback (`funcion_alternativa`) returning a one-cell
result set. -/
def fbEjemplo : String → List String → Option DataFrame :=
  fun _ _ => some ⟨["X"], [["42"]]⟩

/-- A concrete extract whose column labels contain duplicates. -/
def dfEjemplo : DataFrame :=
  ⟨["A", "B", "A", "A"], [["1", "2", "3", "4"]]⟩

/-- A concrete extract on which the two disambiguation implementations
disagree: the suffixed name `A_1` of the duplicated label `A` collides
with the separately duplicated label `A_1`. -/
def dfColision : DataFrame :=
  ⟨["A", "A", "A_1", "A_1"], [["w", "x", "y", "z"]]⟩

/-- The EAN-join fixture of the spec's scenario: one lookup entry and
two detail rows, one matching after trimming, one not. -/
def filasEscenario : List FilaDet := [⟨"123 ", ["a"]⟩, ⟨"999", ["b"]⟩]

/-- The lookup table of the spec's EAN scenario. -/
def lookupEscenario : List (String × String) := [("123", "000111")]

example : normalizar_header "Año_Fiscal" = "ANO_FISCAL" := by decide
example : normalizar_header "año_fiscal" = "ANO_FISCAL" := by decide
example : normalizar_header "Región-País" = "REGION_PAIS" := by decide
example : normalizar_header "tc" = "TC" := by decide
example : normalizar_header "TC" = "TIPO_CAMBIO" := by decide
example :
    normalizar_nombre_tabla "📊_Reporte_Único_de_Ventas_CHILE_normalizado.csv" "CHILE"
      = "REPORTE_UNICO_DE_VENTAS_CHILE" := by decide
example :
    normalizar_nombre_tabla "👥_Listar_Clientes_CHILE_normalizado.csv" "CHILE"
      = "LISTAR_CLIENTES_CHILE" := by decide
example :
    normalizar_nombre_tabla "MAEGC_PRODUCTO_CHILE_normalizado.csv" "CHILE"
      = "MAEGC_PRODUCTO_CHILE" := by decide
example : nuevasColumnas ["A", "B", "A", "A"] = ["A", "B", "A_1", "A_2"] := by decide
example : columnasPandas ["A", "B", "A", "A"] = ["A", "B", "A_1", "A_2"] := by decide
example :
    nuevasColumnas ["A", "A", "A_1", "A_1"] = ["A", "A_1", "A_1", "A_1_1"] := by decide
example :
    columnasPandas ["A", "A", "A_1", "A_1"] = ["A", "A_1", "A_1_1", "A_1_2"] := by decide
example : fechaInicioLiteral ⟨2026, 1, 27⟩ = "2023-02-12" := by decide
example : restarDias ⟨2026, 1, 27⟩ 1 = ⟨2026, 1, 26⟩ := by decide
example : restarDias ⟨2026, 1, 27⟩ 27 = ⟨2025, 12, 31⟩ := by decide
example : restarDias ⟨2024, 3, 1⟩ 1 = ⟨2024, 2, 29⟩ := by decide
example : restarDias ⟨2023, 3, 1⟩ 1 = ⟨2023, 2, 28⟩ := by decide
set_option maxRecDepth 4000 in
example : restarDias ⟨2026, 1, 27⟩ 100 = Nat.iterate diaAnterior 100 ⟨2026, 1, 27⟩ := by decide
set_option maxRecDepth 4000 in
example : restarDias ⟨2024, 4, 10⟩ 80 = Nat.iterate diaAnterior 80 ⟨2024, 4, 10⟩ := by decide
example :
    mergeEanIzq [⟨"123 ", ["a"]⟩, ⟨"999", ["b"]⟩] [("123", "000111")]
      = [(⟨"123 ", ["a"]⟩, "000111"), (⟨"999", ["b"]⟩, "")] := by decide
example :
    (mergeEanIzq [⟨"123", []⟩] [("123", "A"), ("123", "B")]).length = 2 := by decide
example : cargas [] "T" [5] = [("T", 5)] := by decide
example : cargas [] "T" [5, 6] = [("T_OLD", 5), ("T", 6)] := by decide
example : cargas [] "T" [5, 6, 7] = [("T_OLD", 6), ("T", 7)] := by decide
example : ejecutar_pipeline true false none (fun p => p != 2) true = (0, 2, 1) := by decide
example : ejecutar_pipeline true false none (fun _ => true) true = (0, 3, 0) := by decide
example : ejecutar_pipeline false false none (fun _ => true) true = (1, 0, 0) := by decide
example :
    (ejecutar_con_fallback (.errorMsg "timeout expired") "CHILE" ["2026-01-01"]
        (some (fun _ _ => some ⟨["X"], [["42"]]⟩))).2.length = 1 := by decide

/-! ## Claim C2 — fallback dispatch -/

/-- Claim C2, counterexample: a remote failure whose message is not the
"procedure not found" phrase ("timeout expired", as `esSpNoEncontrado`
itself certifies) still causes `ejecutar_con_fallback` to invoke the
supplied fallback (the invocation log has length 1) and to return the
fallback's result instead of propagating the failure — contradicting
the claim that on any other error the fallback is never invoked. -/
theorem C2_counterexample :
    esSpNoEncontrado "timeout expired" = false ∧
    (ejecutar_con_fallback (.errorMsg "timeout expired") "CHILE"
        ["2026-01-01", "2026-01-31"] (some fbEjemplo)).2 = [("CHILE", ["2026-01-01", "2026-01-31"])] ∧
    (ejecutar_con_fallback (.errorMsg "timeout expired") "CHILE"
        ["2026-01-01", "2026-01-31"] (some fbEjemplo)).1 = some ⟨["X"], [["42"]]⟩ := by
  refine ⟨by decide, rfl, rfl⟩

/-- Claim C2, amended: `ejecutar_sp` collapses every failure kind
(procedure not found, any other execution error, failed connection) to
`None`, and `ejecutar_con_fallback` invokes the supplied fallback
exactly once, with the original `(country, params)` arguments, whenever
`ejecutar_sp` returned `None` — not only on "procedure not found" — and
returns the fallback's result. -/
theorem C2_fallback_cualquier_fallo (resultado : ResultadoSp) (pais : String)
    (params : List String) (f : String → List String → Option DataFrame)
    (h : ejecutar_sp resultado = none) :
    ejecutar_con_fallback resultado pais params (some f)
      = (f pais params, [(pais, params)]) := by
  unfold ejecutar_con_fallback
  rw [h]

/-- Witness for `C2_fallback_cualquier_fallo` at the "procedure not
found" outcome the original claim describes. -/
theorem C2_fallback_witness :
    ejecutar_sp (.errorMsg "could not find stored procedure uspX") = none ∧
    ejecutar_con_fallback (.errorMsg "could not find stored procedure uspX")
        "PERU" ["2026-01-01"] (some fbEjemplo)
      = (fbEjemplo "PERU" ["2026-01-01"], [("PERU", ["2026-01-01"])]) :=
  ⟨rfl, C2_fallback_cualquier_fallo _ "PERU" ["2026-01-01"] fbEjemplo rfl⟩

/-! ## Claim C4 — table-name resolution -/

/-- Claim C4, counterexample: the resolver does not return
`REPORTEUNICODEVENTASCHILE` on the claim's input — the source
substitutes non-alphanumeric characters with underscores instead of
dropping them, so the underscores between words survive. -/
theorem C4_counterexample :
    normalizar_nombre_tabla "📊_Reporte_Único_de_Ventas_CHILE_normalizado.csv" "CHILE"
      ≠ "REPORTEUNICODEVENTASCHILE" := by decide

/-- Claim C4, amended: the resolver drops the `_normalizado.csv`
suffix, strips diacritics, replaces every character that is not
alphanumeric or underscore by an underscore (substitution, not
removal), collapses repeated underscores, uppercases and strips edge
underscores; on the claim's input it returns
`REPORTE_UNICO_DE_VENTAS_CHILE` (the value the source's own docstring
documents), and on the docstring's other examples the documented
values. -/
theorem C4_resolucion_nombre_tabla :
    normalizar_nombre_tabla "📊_Reporte_Único_de_Ventas_CHILE_normalizado.csv" "CHILE"
        = "REPORTE_UNICO_DE_VENTAS_CHILE" ∧
    normalizar_nombre_tabla "👥_Listar_Clientes_CHILE_normalizado.csv" "CHILE"
        = "LISTAR_CLIENTES_CHILE" ∧
    normalizar_nombre_tabla "MAEGC_PRODUCTO_CHILE_normalizado.csv" "CHILE"
        = "MAEGC_PRODUCTO_CHILE" := by
  refine ⟨by decide, by decide, by decide⟩

/-! ## Claim C7 — header normalization determinism -/

/-- Claim C7: `normalizar_header` is a pure function (it is a Lean
function of its argument alone, so determinism holds by construction);
`normalize("Año_Fiscal")` and `normalize("año_fiscal")` both yield
`ANO_FISCAL`, `normalize("Región-País")` yields `REGION_PAIS`, and every
fixed-mapping entry is returned verbatim. -/
theorem C7_normalizacion_determinista :
    normalizar_header "Año_Fiscal" = "ANO_FISCAL" ∧
    normalizar_header "año_fiscal" = "ANO_FISCAL" ∧
    normalizar_header "Región-País" = "REGION_PAIS" ∧
    (MAPEO_HEADERS.all (fun kv => normalizar_header kv.1 == kv.2)) = true := by
  refine ⟨by decide, by decide, by decide, by decide⟩

/-! ## Claim C8 — orchestrator exit status -/

/-- Claim C8 (code bug): `ejecutar_pipeline` records step failures only
in the run-summary counters — with a valid configuration and no step
filter, a run in which step 2 fails produces exit status 0, the same
exit status as a run in which all three steps succeed, so the process
exit status does not distinguish the two; only a configuration failure
yields exit status 1. -/
theorem C8_exit_status_no_distingue :
    ejecutar_pipeline true false none (fun p => p != 2) true = (0, 2, 1) ∧
    ejecutar_pipeline true false none (fun _ => true) true = (0, 3, 0) ∧
    (ejecutar_pipeline true false none (fun p => p != 2) true).1
      = (ejecutar_pipeline true false none (fun _ => true) true).1 ∧
    (∀ (configOk dryRun : Bool) (soloPaso : Option Nat) (res res' : Nat → Bool)
        (cont cont' : Bool),
      (ejecutar_pipeline configOk dryRun soloPaso res cont).1
        = (ejecutar_pipeline configOk dryRun soloPaso res' cont').1) ∧
    ejecutar_pipeline false false none (fun _ => true) true = (1, 0, 0) := by
  refine ⟨rfl, rfl, rfl, ?_, rfl⟩
  intro configOk dryRun soloPaso res res' cont cont'
  cases configOk <;> cases soloPaso <;> simp [ejecutar_pipeline] <;> split <;> rfl

/-! ## Claim C6 — 36-month extraction window -/

set_option maxRecDepth 100000 in
/-- Claim C6: whenever a date column is detected, the extraction query
contains a lower-bound literal equal to `now` minus exactly
`36 * 30 = 1080` calendar days, formatted `YYYY-MM-DD` (the literal is
the only part of the query that depends on `now`); with `now` fixed at
2026-01-27 the literal is 2023-02-12, the calendar date exactly 1080
days earlier; and when no date column is detected the query of every
base table is unbounded (it contains no `>= '` lower bound and does not
depend on `now`). -/
theorem C6_ventana_36_meses (tabla codigoPais col : String) (ahora : Fecha) :
    (∃ pre suf : String, ∀ f : Fecha,
        construirQuery tabla codigoPais (some col) f
          = pre ++ fechaInicioLiteral f ++ suf) ∧
    fechaInicioLiteral ahora = formatoFecha (restarDias ahora 1080) ∧
    fechaInicioLiteral ⟨2026, 1, 27⟩ = "2023-02-12" ∧
    (∀ f g : Fecha,
        construirQuery tabla codigoPais none f = construirQuery tabla codigoPais none g) ∧
    (TABLAS_BASE.all (fun t =>
        !(contieneSub ">= '".data (construirQuery t "CL" none ⟨2026, 1, 27⟩).data))) = true := by
  refine ⟨?_, rfl, by decide, ?_, by decide⟩
  · by_cases h : String.mk (tabla.data.map pyToUpper) == "MOVGC_VTDOCUMENTOVTADET"
    · refine ⟨cteEanLookup codigoPais ++ tabla ++
        " d WITH (NOLOCK, INDEX(0))\n                LEFT JOIN EAN_LOOKUP e ON RTRIM(d.cProductoVta) = e.cProducto\n                WHERE d." ++
        col ++ " >= '",
        "'\n                OPTION (MAXDOP 4, OPTIMIZE FOR UNKNOWN)\n                ", ?_⟩
      intro f
      simp [construirQuery, h]
    · refine ⟨"\n            SELECT * \n            FROM " ++ tabla ++
        " WITH (NOLOCK, INDEX(0))\n            WHERE " ++ col ++ " >= '",
        "'\n            OPTION (MAXDOP 4, OPTIMIZE FOR UNKNOWN)\n            ", ?_⟩
      intro f
      simp [construirQuery, h]
  · intro f g
    by_cases h : String.mk (tabla.data.map pyToUpper) == "MOVGC_VTDOCUMENTOVTADET" <;>
      simp [construirQuery, h]

/-! ## Claim C1 — backup-and-replace rotation -/

theorem ne_tabla_old (t : String) : t ≠ t ++ "_OLD" := by
  intro h
  have hl := congrArg String.length h
  rw [String.length_append] at hl
  have : "_OLD".length = 4 := rfl
  omega

theorem beq_tabla_old_false (t : String) : (t == t ++ "_OLD") = false :=
  beq_eq_false_iff_ne.mpr (ne_tabla_old t)

theorem beq_old_tabla_false (t : String) : (t ++ "_OLD" == t) = false :=
  beq_eq_false_iff_ne.mpr (fun h => ne_tabla_old t h.symm)

/-- A load into a schema whose live table exists next to a retained
backup: the old backup is dropped, the live version becomes the backup,
the new version becomes live. -/
theorem crear_paso (t : String) (p l v : Nat) :
    crear_tabla_snowflake [(t ++ "_OLD", p), (t, l)] t v = [(t ++ "_OLD", l), (t, v)] := by
  simp [crear_tabla_snowflake, tablaExiste, dropTable, renameTable, createTable,
    beq_tabla_old_false, beq_old_tabla_false]

/-- A load into a schema holding only the live table. -/
theorem crear_inicial (t : String) (a v : Nat) :
    crear_tabla_snowflake [(t, a)] t v = [(t ++ "_OLD", a), (t, v)] := by
  simp [crear_tabla_snowflake, tablaExiste, dropTable, renameTable, createTable,
    beq_tabla_old_false]

/-- Closed form of a run of loads starting from a live table plus a
backup: the backup ends up holding the second-to-last version, the live
table the last. -/
theorem cargas_par (t : String) :
    ∀ (vs : List Nat) (p l : Nat),
      cargas [(t ++ "_OLD", p), (t, l)] t vs
        = [(t ++ "_OLD", (l :: vs).dropLast.getLastD p), (t, (l :: vs).getLastD l)] := by
  intro vs
  induction vs with
  | nil => intro p l; simp [cargas]
  | cons x rest ih =>
    intro p l
    have h1 : cargas [(t ++ "_OLD", p), (t, l)] t (x :: rest)
        = cargas [(t ++ "_OLD", l), (t, x)] t rest := by
      simp [cargas, crear_paso]
    rw [h1, ih l x]
    simp only [List.dropLast_cons₂, List.getLastD_cons]

/-- Every state reachable by loads from a live-table-only start is
either that start or a (backup, live) pair. -/
theorem cargas_forma (t : String) (a : Nat) :
    ∀ (vs : List Nat), cargas [(t, a)] t vs = [(t, a)] ∨
      ∃ p l, cargas [(t, a)] t vs = [(t ++ "_OLD", p), (t, l)] := by
  intro vs
  rcases vs with _ | ⟨v, rest⟩
  · left; rfl
  · right
    have h1 : cargas [(t, a)] t (v :: rest)
        = cargas [(t ++ "_OLD", a), (t, v)] t rest := by
      simp [cargas, crear_inicial]
    rw [h1, cargas_par]
    exact ⟨_, _, rfl⟩

/-- Claim C1: starting from any state in which the live table `tabla`
exists (with or without a retained `tabla_OLD` backup), after `N ≥ 1`
consecutive successful loads the schema holds exactly the pair
`[(tabla_OLD, previous version), (tabla, last version)]`: the loader\'s
drop-`_OLD` / rename / create sequence keeps exactly one `_OLD` table —
the `(N-1)`-th version, the initial live version when `N = 1` — and at
no point along the run do two `_OLD` generations coexist. -/
theorem C1_rotacion_backup (tabla : String) (a b v : Nat) (vs : List Nat) :
    cargas [(tabla, a)] tabla (v :: vs)
        = [(tabla ++ "_OLD", (v :: vs).dropLast.getLastD a), (tabla, (v :: vs).getLastD v)] ∧
    cargas [(tabla ++ "_OLD", b), (tabla, a)] tabla (v :: vs)
        = [(tabla ++ "_OLD", (v :: vs).dropLast.getLastD a), (tabla, (v :: vs).getLastD v)] ∧
    cuentaTabla (cargas [(tabla, a)] tabla (v :: vs)) (tabla ++ "_OLD") = 1 ∧
    (∀ k, cuentaTabla (cargas [(tabla, a)] tabla ((v :: vs).take k)) (tabla ++ "_OLD") ≤ 1) ∧
    (∀ k, cuentaTabla (cargas [(tabla ++ "_OLD", b), (tabla, a)] tabla ((v :: vs).take k))
        (tabla ++ "_OLD") ≤ 1) := by
  have hpar : cargas [(tabla, a)] tabla (v :: vs)
      = [(tabla ++ "_OLD", (v :: vs).dropLast.getLastD a), (tabla, (v :: vs).getLastD v)] := by
    have h1 : cargas [(tabla, a)] tabla (v :: vs)
        = cargas [(tabla ++ "_OLD", a), (tabla, v)] tabla vs := by
      simp [cargas, crear_inicial]
    rw [h1, cargas_par]
  have hpar2 : cargas [(tabla ++ "_OLD", b), (tabla, a)] tabla (v :: vs)
      = [(tabla ++ "_OLD", (v :: vs).dropLast.getLastD a), (tabla, (v :: vs).getLastD v)] := by
    rw [cargas_par]
    simp only [List.dropLast_cons₂, List.getLastD_cons]
  refine ⟨hpar, hpar2, ?_, ?_, ?_⟩
  · rw [hpar]
    simp [cuentaTabla, beq_old_tabla_false, ne_tabla_old]
  · intro k
    rcases cargas_forma tabla a ((v :: vs).take k) with h | ⟨p, l, h⟩ <;> rw [h] <;>
      simp [cuentaTabla, beq_old_tabla_false, beq_tabla_old_false]
  · intro k
    rw [cargas_par]
    simp [cuentaTabla, beq_old_tabla_false, ne_tabla_old]

/-! ## Claim C3 — EAN join completeness -/

/-- When the stripped lookup codes are pairwise distinct, filtering the
lookup by a key finds at most one entry: the one `find?` returns. -/
theorem filtro_lookup_unico (lookup : List (String × String)) (k : List Char)
    (h : (lookup.map (fun par => pyStrip par.1.data)).Nodup) :
    lookup.filter (fun par => pyStrip par.1.data == k)
      = ((lookup.find? (fun par => pyStrip par.1.data == k)).map
          (fun par => [par])).getD [] := by
  induction lookup with
  | nil => rfl
  | cons q rest ih =>
    rw [List.map_cons, List.nodup_cons] at h
    by_cases hq : (pyStrip q.1.data == k) = true
    · have hrest : rest.filter (fun par => pyStrip par.1.data == k) = [] := by
        refine List.filter_eq_nil_iff.mpr (fun par hpar => ?_)
        intro hpk
        refine h.1 ?_
        have hpk2 : pyStrip par.1.data = k := by
          simpa using hpk
        have hk : pyStrip q.1.data = k := by
          simpa using hq
        rw [hk, ← hpk2]
        exact List.mem_map_of_mem _ hpar
      simp only [List.filter_cons, List.find?_cons, hq, if_true, hrest]
      rfl
    · simp only [List.filter_cons, List.find?_cons, hq, if_false]
      exact ih h.2

/-- Left-merge closed form under unique stripped lookup codes: each
input row yields exactly one output row, in order, paired with its
looked-up EAN or the empty string. -/
theorem merge_ean_unico (filas : List FilaDet) (lookup : List (String × String))
    (h : (lookup.map (fun par => pyStrip par.1.data)).Nodup) :
    mergeEanIzq filas lookup
      = filas.map (fun fila =>
          (fila, ((lookup.find? (fun par =>
              pyStrip par.1.data == pyStrip fila.codigo.data)).map
            (fun par => par.2)).getD "")) := by
  induction filas with
  | nil => rfl
  | cons f rest ih =>
    rw [mergeEanIzq, List.flatMap_cons, ← mergeEanIzq, ih, List.map_cons]
    rw [filtro_lookup_unico lookup (pyStrip f.codigo.data) h]
    rcases hfind : lookup.find? (fun par => pyStrip par.1.data == pyStrip f.codigo.data) with
      _ | par <;> rw [hfind] <;> rfl

/-- Claim C3, counterexample: with a lookup holding two entries for the
same (stripped) product code — possible, since the SQL `DISTINCT`
deduplicates `(code, ean)` pairs, not codes — the left merge duplicates
the matching input row, so the output row count differs from the input
row count. -/
theorem C3_counterexample :
    (agregar_columna_ean true true [⟨"123", []⟩] [("123", "A"), ("123", "B")]).length
      ≠ ([⟨"123", ([] : List String)⟩] : List FilaDet).length := by decide

/-- Claim C3, amended: provided the lookup's stripped product codes are
pairwise distinct (as in the claim's country-scoped `EAN12` scenario),
the post-hoc EAN enrichment emits exactly one output row per input row,
in the same order and with the row contents untouched, and every row's
EAN is the looked-up code when the trimmed product code matches a
lookup entry and the empty string otherwise — never null, never a
dropped row.  Without the distinctness proviso a duplicated lookup code
duplicates rows (`C3_counterexample`). -/
theorem C3_ean_join_completo (filas : List FilaDet) (lookup : List (String × String))
    (h : (lookup.map (fun par => pyStrip par.1.data)).Nodup) :
    agregar_columna_ean true true filas lookup
      = filas.map (fun fila =>
          (fila, ((lookup.find? (fun par =>
              pyStrip par.1.data == pyStrip fila.codigo.data)).map
            (fun par => par.2)).getD "")) ∧
    (agregar_columna_ean true true filas lookup).length = filas.length ∧
    (agregar_columna_ean true true filas lookup).map Prod.fst = filas := by
  have hmain : agregar_columna_ean true true filas lookup
      = filas.map (fun fila =>
          (fila, ((lookup.find? (fun par =>
              pyStrip par.1.data == pyStrip fila.codigo.data)).map
            (fun par => par.2)).getD "")) := by
    rcases lookup with _ | ⟨q, rest⟩
    · simp [agregar_columna_ean]
    · rw [show agregar_columna_ean true true filas (q :: rest)
          = mergeEanIzq filas (q :: rest) from rfl]
      exact merge_ean_unico filas (q :: rest) h
  refine ⟨hmain, ?_, ?_⟩
  · rw [hmain, List.length_map]
  · rw [hmain, List.map_map]
    exact List.map_id filas

/-- Witness for `C3_ean_join_completo` on the spec's scenario fixture:
one lookup entry `("123", "000111")`, rows with codes `"123 "` and
`"999"`. -/
theorem C3_ean_join_witness :
    (lookupEscenario.map (fun par => pyStrip par.1.data)).Nodup ∧
    agregar_columna_ean true true filasEscenario lookupEscenario
      = filasEscenario.map (fun fila =>
          (fila, ((lookupEscenario.find? (fun par =>
              pyStrip par.1.data == pyStrip fila.codigo.data)).map
            (fun par => par.2)).getD "")) :=
  ⟨by decide, (C3_ean_join_completo filasEscenario lookupEscenario (by decide)).1⟩

/-! ## Claim C5 — disambiguation idempotence and row safety -/

/-- The disambiguated label sequence has the length of the input, for
any starting counter dictionary. -/
theorem nuevasGo_length (ls : List String) :
    ∀ m, (nuevasColumnasGo m ls).length = ls.length := by
  induction ls with
  | nil => intro m; rfl
  | cons c rest ih =>
    intro m
    rcases hf : dictFind m c with _ | e <;> simp [nuevasColumnasGo, hf, ih]

/-- On labels unknown to the counter dictionary and with no duplicates
the counter loop is the identity. -/
theorem nuevasGo_id (ls : List String) :
    ∀ m, (∀ c ∈ ls, dictFind m c = none) → ls.Nodup → nuevasColumnasGo m ls = ls := by
  induction ls with
  | nil => intro m _ _; rfl
  | cons c rest ih =>
    intro m hnone hnd
    have h0 : dictFind m c = none := hnone c (List.mem_cons_self c rest)
    have hd : ∀ d ∈ rest, dictFind ((c, 0) :: m) d = none := by
      intro d hd
      have hne : c ≠ d := by
        rintro rfl
        exact (List.nodup_cons.mp hnd).1 hd
      have hbe : (c == d) = false := beq_eq_false_iff_ne.mpr hne
      simp only [dictFind, List.find?_cons, hbe]
      exact hnone d (List.mem_cons_of_mem _ hd)
    simp only [nuevasColumnasGo, h0]
    rw [ih ((c, 0) :: m) hd (List.nodup_cons.mp hnd).2]

/-- Claim C5: `desambiguar_columnas` never changes the row data (cell
values and row count are untouched); the relabeling preserves the
length (and hence the positional order) of the label sequence; on a
duplicate-free label sequence it is the identity; and on
`["A","B","A","A"]` the k-th repeat becomes `label_k`, yielding
`["A","B","A_1","A_2"]`. -/
theorem C5_desambiguacion (df : DataFrame) (ls : List String) (h : ls.Nodup) :
    (desambiguar_columnas df).rows = df.rows ∧
    (nuevasColumnas df.cols).length = df.cols.length ∧
    nuevasColumnas ls = ls ∧
    nuevasColumnas ["A", "B", "A", "A"] = ["A", "B", "A_1", "A_2"] := by
  refine ⟨?_, nuevasGo_length df.cols [], nuevasGo_id ls [] (fun c _ => rfl) h, by decide⟩
  by_cases h1 : df.vacio
  · simp [desambiguar_columnas, h1]
  · by_cases h2 : (nuevasColumnas df.cols == df.cols) = true <;>
      simp [desambiguar_columnas, h1, h2]

/-- Witness for `C5_desambiguacion` on a concrete frame with duplicate
labels and a concrete duplicate-free label list. -/
theorem C5_desambiguacion_witness :
    (["X", "Y"] : List String).Nodup ∧
    ((desambiguar_columnas dfEjemplo).rows = dfEjemplo.rows ∧
     (nuevasColumnas dfEjemplo.cols).length = dfEjemplo.cols.length ∧
     nuevasColumnas ["X", "Y"] = ["X", "Y"] ∧
     nuevasColumnas ["A", "B", "A", "A"] = ["A", "B", "A_1", "A_2"]) :=
  ⟨by decide, C5_desambiguacion dfEjemplo ["X", "Y"] (by decide)⟩

/-! ## Claim C9 — header-normalizer idempotence -/

theorem char_beq_false_of_toNat {c d : Char} (h : c.toNat ≠ d.toNat) : (c == d) = false := by
  cases hb : c == d
  · rfl
  · exact absurd (congrArg Char.toNat (eq_of_beq hb)) h

theorem canonico_toNat {c : Char} (h : esCharCanonico c = true) :
    (65 ≤ c.toNat ∧ c.toNat ≤ 90) ∨ (48 ≤ c.toNat ∧ c.toNat ≤ 57) ∨ c.toNat = 95 := by
  have h0 : ((65 ≤ c.toNat ∧ c.toNat ≤ 90) ∨ (48 ≤ c.toNat ∧ c.toNat ≤ 57)) ∨ c.toNat = 95 := by
    simpa [esCharCanonico] using h
  tauto

theorem canonico_cota {c : Char} (h : esCharCanonico c = true) :
    48 ≤ c.toNat ∧ c.toNat ≤ 95 := by
  rcases canonico_toNat h with ⟨h1, h2⟩ | ⟨h1, h2⟩ | h1 <;> omega

theorem canonico_no_espacio {c : Char} (h : esCharCanonico c = true) :
    pyEsEspacio c = false := by
  have hb := canonico_cota h
  unfold pyEsEspacio
  rw [char_beq_false_of_toNat (d := ' ') (by rw [show (' ').toNat = 32 from rfl]; omega),
    char_beq_false_of_toNat (d := '\t') (by rw [show ('\t').toNat = 9 from rfl]; omega),
    char_beq_false_of_toNat (d := '\n') (by rw [show ('\n').toNat = 10 from rfl]; omega),
    char_beq_false_of_toNat (d := '\r') (by rw [show ('\r').toNat = 13 from rfl]; omega),
    beq_eq_false_iff_ne.mpr (show c.toNat ≠ 11 by omega),
    beq_eq_false_iff_ne.mpr (show c.toNat ≠ 12 by omega)]
  rfl

theorem canonico_nfkd {c : Char} (h : esCharCanonico c = true) : nfkdChar c = [c] := by
  have hb := canonico_cota h
  unfold nfkdChar
  rw [if_pos (by omega)]

theorem canonico_no_combinante {c : Char} (h : esCharCanonico c = true) :
    (!(esCombinante c)) = true := by
  have hb := canonico_cota h
  simp [esCombinante]
  omega

theorem canonico_no_separador {c : Char} (h : esCharCanonico c = true) :
    reemplazarSeparador c = c := by
  have hb := canonico_cota h
  unfold reemplazarSeparador
  rw [char_beq_false_of_toNat (d := ' ') (by rw [show (' ').toNat = 32 from rfl]; omega),
    char_beq_false_of_toNat (d := '.') (by rw [show ('.').toNat = 46 from rfl]; omega)]
  rcases canonico_toNat h with ⟨h1, h2⟩ | ⟨h1, h2⟩ | h1 <;>
    rw [char_beq_false_of_toNat (d := '-') (by rw [show ('-').toNat = 45 from rfl]; omega)] <;>
    rfl

theorem canonico_upper {c : Char} (h : esCharCanonico c = true) : pyToUpper c = c := by
  have hb := canonico_cota h
  unfold pyToUpper
  rw [if_neg (by simp; omega)]

theorem dropWhile_id_de_falso {α : Type} {p : α → Bool} :
    ∀ l : List α, (∀ c ∈ l, p c = false) → l.dropWhile p = l := by
  intro l h
  cases l with
  | nil => rfl
  | cons c rest => simp [List.dropWhile_cons, h c (List.mem_cons_self c rest)]

theorem pyStrip_id (l : List Char) (h : ∀ c ∈ l, pyEsEspacio c = false) :
    pyStrip l = l := by
  unfold pyStrip
  rw [dropWhile_id_de_falso l h,
    dropWhile_id_de_falso l.reverse (fun c hc => h c (List.mem_reverse.mp hc)),
    List.reverse_reverse]

theorem map_id_de (l : List Char) (f : Char → Char) (h : ∀ c ∈ l, f c = c) :
    l.map f = l := by
  induction l with
  | nil => rfl
  | cons c rest ih =>
    rw [List.map_cons, h c (List.mem_cons_self c rest),
      ih (fun d hd => h d (List.mem_cons_of_mem _ hd))]

theorem flatMap_id_de (l : List Char) (h : ∀ c ∈ l, nfkdChar c = [c]) :
    l.flatMap nfkdChar = l := by
  induction l with
  | nil => rfl
  | cons c rest ih =>
    rw [List.flatMap_cons, h c (List.mem_cons_self c rest),
      ih (fun d hd => h d (List.mem_cons_of_mem _ hd))]
    rfl

theorem quitarAcentos_id (l : List Char) (h : ∀ c ∈ l, esCharCanonico c = true) :
    quitarAcentos l = l := by
  unfold quitarAcentos
  rw [flatMap_id_de l (fun c hc => canonico_nfkd (h c hc))]
  exact List.filter_eq_self.mpr (fun c hc => canonico_no_combinante (h c hc))

theorem colapsar_id : ∀ l : List Char, tieneDobleGuion l = false → colapsarGuiones l = l := by
  intro l
  induction l using colapsarGuiones.induct with
  | case1 => intro _; rfl
  | case2 c => intro _; rfl
  | case3 a b r hab ih =>
    intro h
    unfold tieneDobleGuion at h
    rw [Bool.or_eq_false_iff] at h
    exact absurd hab (by simp [h.1])
  | case4 a b r hab ih =>
    intro h
    unfold tieneDobleGuion at h
    rw [Bool.or_eq_false_iff] at h
    unfold colapsarGuiones
    rw [if_neg (by simp [h.1]), ih h.2]

theorem strip_guiones_id (l : List Char) (h1 : l.head? ≠ some '_')
    (h2 : l.getLast? ≠ some '_') : stripGuionesBajos l = l := by
  have hd : l.dropWhile (fun c => c == '_') = l := by
    cases l with
    | nil => rfl
    | cons c rest =>
      have hc : c ≠ '_' := by
        intro hc
        exact h1 (by rw [hc]; rfl)
      simp [List.dropWhile_cons, hc]
  have hrev : l.reverse.dropWhile (fun c => c == '_') = l.reverse := by
    rcases hl : l.reverse with _ | ⟨c, rest⟩
    · rfl
    · have hg : l.getLast? = some c := by
        rw [← List.head?_reverse, hl]
        rfl
      have hc : c ≠ '_' := by
        intro hc
        rw [hc] at hg
        exact h2 hg
      rw [← hl]
      rw [hl]
      simp [List.dropWhile_cons, hc]
  show ((l.dropWhile (fun c => c == '_')).reverse.dropWhile (fun c => c == '_')).reverse = l
  rw [hd, hrev, List.reverse_reverse]

/-- Every fixed-mapping entry whose key is itself canonical (and is not
`TC`) maps the key to itself — a finite check over the dictionary. -/
theorem mapeo_fijo : (MAPEO_HEADERS.all (fun kv =>
    !(esCanonico kv.1) || (kv.1 == "TC") || (kv.2 == kv.1))) = true := by decide

/-- Canonical labels are fixed points of `normalizar_header`. -/
theorem norm_fijo (t : String) (h : esCanonico t = true) : normalizar_header t = t := by
  have h' := h
  simp only [esCanonico, Bool.and_eq_true, Bool.not_eq_true', beq_eq_false_iff_ne,
    List.all_eq_true] at h'
  obtain ⟨⟨⟨⟨hTC, hAll⟩, hDbl⟩, hHead⟩, hLast⟩ := h'
  unfold normalizar_header
  rcases hfind : MAPEO_HEADERS.find? (fun kv => kv.1 == t) with _ | kv
  · rw [hfind]
    show normalizarGenerico t = t
    show String.mk (stripGuionesBajos (colapsarGuiones
      (((quitarAcentos (pyStrip t.data)).map reemplazarSeparador).map pyToUpper))) = t
    rw [pyStrip_id t.data (fun c hc => canonico_no_espacio (hAll c hc)),
      quitarAcentos_id t.data hAll,
      map_id_de t.data reemplazarSeparador (fun c hc => canonico_no_separador (hAll c hc)),
      map_id_de t.data pyToUpper (fun c hc => canonico_upper (hAll c hc)),
      colapsar_id t.data hDbl,
      strip_guiones_id t.data hHead hLast]
  · rw [hfind]
    have hmem := List.mem_of_find?_eq_some hfind
    have hkt : kv.1 = t := by
      have := List.find?_some hfind
      simpa using this
    have hkv := List.all_eq_true.mp mapeo_fijo kv hmem
    rw [hkt] at hkv
    rw [h] at hkv
    rw [beq_eq_false_iff_ne.mpr hTC] at hkv
    simpa using hkv

/-- Claim C9, counterexample: the normalizer is not idempotent — the
generic path sends `"tc"` to `"TC"`, but a second application hits the
fixed-mapping key `TC` and returns `TIPO_CAMBIO`. -/
theorem C9_counterexample :
    normalizar_header (normalizar_header "tc") ≠ normalizar_header "tc" := by decide

/-- Claim C9, amended: the header normalizer is idempotent on every
input whose normalized form is a canonical label — built only of
uppercase ASCII letters, digits and underscores, with no doubled or
edge underscore — other than the reserved fixed-mapping key `TC`
(whose second application yields `TIPO_CAMBIO`, see
`C9_counterexample`; inputs normalizing to strings with exotic
characters can likewise degrade). -/
theorem C9_idempotencia (s : String) (h : esCanonico (normalizar_header s) = true) :
    normalizar_header (normalizar_header s) = normalizar_header s :=
  norm_fijo (normalizar_header s) h

/-- Witness for `C9_idempotencia` at the claim scenario input
`"Región-País"`, whose normalized form `REGION_PAIS` is canonical. -/
theorem C9_idempotencia_witness :
    esCanonico (normalizar_header "Región-País") = true ∧
    normalizar_header (normalizar_header "Región-País") = normalizar_header "Región-País" :=
  ⟨by decide, C9_idempotencia "Región-País" (by decide)⟩

/-! ## Claim C10 — equivalence of the two disambiguators -/

theorem dictFind_set_eq (m : List (String × Nat)) (c : String) (v : Nat) :
    dictFind (dictSet m c v) c = (dictFind m c).map (fun _ => (c, v)) := by
  induction m with
  | nil => rfl
  | cons e m ih =>
    show dictFind ((if e.1 == c then (c, v) else e) :: dictSet m c v) c
        = (dictFind (e :: m) c).map (fun _ => (c, v))
    by_cases he : e.1 = c
    · have hbe : (e.1 == c) = true := by simp [he]
      rw [if_pos hbe]
      have h1 : ((c, v).1 == c) = true := by simp
      simp only [dictFind, List.find?_cons, h1, hbe]
      rfl
    · have hbe : (e.1 == c) = false := beq_eq_false_iff_ne.mpr he
      rw [if_neg (by simp [he])]
      simp only [dictFind, List.find?_cons, hbe]
      exact ih

theorem dictFind_set_ne (m : List (String × Nat)) (c : String) (v : Nat) (d : String)
    (hd : c ≠ d) : dictFind (dictSet m c v) d = dictFind m d := by
  induction m with
  | nil => rfl
  | cons e m ih =>
    show dictFind ((if e.1 == c then (c, v) else e) :: dictSet m c v) d = dictFind (e :: m) d
    by_cases he : e.1 = c
    · rw [if_pos (by simp [he])]
      have h1 : ((c, v).1 == d) = false := beq_eq_false_iff_ne.mpr hd
      have h2 : (e.1 == d) = false := beq_eq_false_iff_ne.mpr (by rw [he]; exact hd)
      simp only [dictFind, List.find?_cons, h1, h2]
      exact ih
    · rw [if_neg (by simp [he])]
      by_cases hed : e.1 = d
      · have h3 : (e.1 == d) = true := by simp [hed]
        simp only [dictFind, List.find?_cons, h3]
      · have h3 : (e.1 == d) = false := beq_eq_false_iff_ne.mpr hed
        simp only [dictFind, List.find?_cons, h3]
        exact ih

/-- The counter loop of `desambiguar_columnas` computes the
occurrence-count closed form, given that the counter dictionary agrees
with the labels already emitted. -/
theorem nuevas_cerrada_go :
    ∀ (rest : List String) (m : List (String × Nat)) (prev : List String),
      (∀ c, prev.count c = ((dictFind m c).map (fun e => e.2 + 1)).getD 0) →
      nuevasColumnasGo m rest = formaCerradaGo prev rest := by
  intro rest
  induction rest with
  | nil => intro m prev _; rfl
  | cons c rest ih =>
    intro m prev hrel
    have hc := hrel c
    rcases hf : dictFind m c with _ | e
    · rw [hf] at hc
      simp only [Option.map_none', Option.getD_none] at hc
      have hv : valorCf prev c = c := by simp [valorCf, hc]
      simp only [nuevasColumnasGo, hf, formaCerradaGo, hv]
      refine congrArg (List.cons c) (ih ((c, 0) :: m) (prev ++ [c]) ?_)
      intro d
      rw [List.count_append]
      by_cases hd : c = d
      · subst hd
        rw [show dictFind ((c, 0) :: m) c = some (c, 0) from by
          simp [dictFind, List.find?_cons]]
        simp [hc, List.count_cons]
      · have hbe : (c == d) = false := beq_eq_false_iff_ne.mpr hd
        rw [show dictFind ((c, 0) :: m) d = dictFind m d from by
          simp [dictFind, List.find?_cons, hbe]]
        rw [← hrel d]
        simp [List.count_cons, beq_eq_false_iff_ne.mpr hd]
    · rw [hf] at hc
      simp only [Option.map_some', Option.getD_some] at hc
      have hv : valorCf prev c = c ++ "_" ++ toString (e.2 + 1) := by
        simp [valorCf, hc]
      simp only [nuevasColumnasGo, hf, formaCerradaGo, hv]
      refine congrArg (List.cons _) (ih (dictSet m c (e.2 + 1)) (prev ++ [c]) ?_)
      intro d
      rw [List.count_append]
      by_cases hd : c = d
      · subst hd
        rw [dictFind_set_eq, hf]
        simp [hc, List.count_cons]
      · rw [dictFind_set_ne m c (e.2 + 1) d hd, ← hrel d]
        simp [List.count_cons, beq_eq_false_iff_ne.mpr hd]

/-- The downloader's counter-based disambiguation equals the
closed form. -/
theorem nuevas_eq_cerrada (ls : List String) : nuevasColumnas ls = formaCerrada ls :=
  nuevas_cerrada_go ls [] [] (fun _ => rfl)

theorem buenas_spec {ls : List String} (h : buenasEtiquetas ls = true) :
    ∀ l ∈ ls, ∀ d ∈ ls, ∀ k, 1 ≤ k → k ≤ ls.length → l ≠ d ++ "_" ++ toString k := by
  intro l hl d hd k hk1 hk2 heq
  have h1 := List.all_eq_true.mp h l hl
  have h2 := List.all_eq_true.mp h1 d hd
  have h3 := List.all_eq_true.mp h2 (k - 1) (List.mem_range.mpr (by omega))
  rw [show k - 1 + 1 = k from by omega] at h3
  simp only [Bool.not_eq_true', beq_eq_false_iff_ne] at h3
  exact h3 heq

theorem parcial_vacio : ∀ (rest prev : List String), parcialGo [] prev rest = rest := by
  intro rest
  induction rest with
  | nil => intro prev; rfl
  | cons c rest ih =>
    intro prev
    simp [parcialGo, ih]

theorem parcial_congr : ∀ (rest D D2 prev : List String),
    (∀ c, c ∈ D ↔ c ∈ D2) → parcialGo D prev rest = parcialGo D2 prev rest := by
  intro rest
  induction rest with
  | nil => intro D D2 prev _; rfl
  | cons c rest ih =>
    intro D D2 prev h
    simp only [parcialGo]
    by_cases hc : c ∈ D
    · rw [if_pos hc, if_pos ((h c).mp hc), ih D D2 (prev ++ [c]) h]
    · rw [if_neg hc, if_neg (fun hc2 => hc ((h c).mpr hc2)), ih D D2 (prev ++ [c]) h]

/-- Core interference-freedom step: renaming the duplicated label `d`
in a partially disambiguated list (all labels of `D` already renamed)
renames exactly the original occurrences of `d`, producing the partial
form for `d :: D` — provided no label is a suffixed variant of another
(`buenasEtiquetas`). -/
theorem renombra_parcial (ls : List String) (d : String) (hd : d ∈ ls)
    (hgood : buenasEtiquetas ls = true) :
    ∀ (rest prev D : List String), ls = prev ++ rest → d ∉ D →
      renombrarDupGo d (prev.count d) (parcialGo D prev rest) = parcialGo (d :: D) prev rest := by
  intro rest
  induction rest with
  | nil => intro prev D _ _; rfl
  | cons c rest ih =>
    intro prev D hsplit hdD
    have hsplit2 : ls = (prev ++ [c]) ++ rest := by
      rw [hsplit, List.append_assoc]
      rfl
    have hcls : c ∈ ls := by
      rw [hsplit]
      exact List.mem_append_right _ (List.mem_cons_self _ _)
    simp only [parcialGo]
    by_cases hcD : c ∈ D
    · rw [if_pos hcD, if_pos (List.mem_cons_of_mem d hcD)]
      have hcd : c ≠ d := fun h => hdD (h ▸ hcD)
      have hvne : (valorCf prev c == d) = false := by
        unfold valorCf
        by_cases h0 : (prev.count c == 0) = true
        · rw [if_pos h0]
          exact beq_eq_false_iff_ne.mpr hcd
        · rw [if_neg h0]
          refine beq_eq_false_iff_ne.mpr (fun heq => ?_)
          have hk1 : 1 ≤ prev.count c := Nat.pos_of_ne_zero (by simpa using h0)
          have hkb : prev.count c ≤ prev.length := List.count_le_length c prev
          have hpl : prev.length < ls.length := by
            rw [hsplit, List.length_append, List.length_cons]
            omega
          exact buenas_spec hgood d hd c hcls (prev.count c) hk1 (by omega) heq.symm
      simp only [renombrarDupGo, hvne]
      have hcnt : (prev ++ [c]).count d = prev.count d := by
        rw [List.count_append]
        simp [List.count_cons, beq_eq_false_iff_ne.mpr hcd]
      rw [← hcnt]
      exact congrArg (List.cons _) (ih (prev ++ [c]) D hsplit2 hdD)
    · rw [if_neg hcD]
      by_cases hcd : c = d
      · subst hcd
        rw [if_pos (List.mem_cons_self c D)]
        simp only [renombrarDupGo, beq_self_eq_true]
        have hcnt : (prev ++ [c]).count c = prev.count c + 1 := by
          rw [List.count_append]
          simp [List.count_cons]
        have hhead : (if (prev.count c == 0) = true then c
            else c ++ "_" ++ toString (prev.count c)) = valorCf prev c := rfl
        rw [hhead, ← hcnt]
        exact congrArg (List.cons _) (ih (prev ++ [c]) D hsplit2 hdD)
      · rw [if_neg (by simp [hcD, hcd])]
        simp only [renombrarDupGo, beq_eq_false_iff_ne.mpr hcd]
        have hcnt : (prev ++ [c]).count d = prev.count d := by
          rw [List.count_append]
          simp [List.count_cons, beq_eq_false_iff_ne.mpr (Ne.symm (fun h => hcd h.symm))]
        rw [← hcnt]
        exact congrArg (List.cons _) (ih (prev ++ [c]) D hsplit2 hdD)

/-- Folding the dashboard's rename pass over a duplicate-free list of
duplicated labels accumulates the partial form. -/
theorem foldl_renombra (ls : List String) (hgood : buenasEtiquetas ls = true) :
    ∀ (ds D : List String), ds.Nodup → (∀ d ∈ ds, d ∈ ls) → (∀ d ∈ ds, d ∉ D) →
      ds.foldl renombrarDup (parcialGo D [] ls) = parcialGo (ds ++ D) [] ls := by
  intro ds
  induction ds with
  | nil => intro D _ _ _; rfl
  | cons d ds ih =>
    intro D hnd hmem hnotD
    rw [List.foldl_cons]
    have hstep : renombrarDup (parcialGo D [] ls) d = parcialGo (d :: D) [] ls :=
      renombra_parcial ls d (hmem d (List.mem_cons_self d ds)) hgood ls [] D rfl
        (hnotD d (List.mem_cons_self d ds))
    rw [hstep]
    rw [ih (d :: D) (List.nodup_cons.mp hnd).2
      (fun e he => hmem e (List.mem_cons_of_mem _ he)) ?_]
    · refine parcial_congr ls (ds ++ d :: D) ((d :: ds) ++ D) [] (fun c => ?_)
      simp only [List.mem_append, List.mem_cons]
      tauto
    · intro e he
      simp only [List.mem_cons]
      rintro (rfl | heD)
      · exact (List.nodup_cons.mp hnd).1 he
      · exact hnotD e (List.mem_cons_of_mem _ he) heD

theorem unicos_mem : ∀ (l vistos : List String) (c : String),
    c ∈ unicosPrimero vistos l ↔ (c ∈ l ∧ c ∉ vistos) := by
  intro l
  induction l with
  | nil => intro vistos c; simp [unicosPrimero]
  | cons a rest ih =>
    intro vistos c
    by_cases ha : a ∈ vistos
    · rw [show unicosPrimero vistos (a :: rest) = unicosPrimero vistos rest from by
        simp [unicosPrimero, ha]]
      rw [ih vistos c, List.mem_cons]
      by_cases hca : c = a
      · subst hca
        simp [ha]
      · simp [hca]
    · rw [show unicosPrimero vistos (a :: rest) = a :: unicosPrimero (a :: vistos) rest from by
        simp [unicosPrimero, ha]]
      rw [List.mem_cons, ih (a :: vistos) c, List.mem_cons, List.mem_cons]
      by_cases hca : c = a
      · subst hca
        simp [ha]
      · simp [hca]

theorem unicos_nodup : ∀ (l vistos : List String), (unicosPrimero vistos l).Nodup := by
  intro l
  induction l with
  | nil => intro vistos; exact List.nodup_nil
  | cons a rest ih =>
    intro vistos
    by_cases ha : a ∈ vistos
    · rw [show unicosPrimero vistos (a :: rest) = unicosPrimero vistos rest from by
        simp [unicosPrimero, ha]]
      exact ih vistos
    · rw [show unicosPrimero vistos (a :: rest) = a :: unicosPrimero (a :: vistos) rest from by
        simp [unicosPrimero, ha]]
      refine List.nodup_cons.mpr ⟨?_, ih (a :: vistos)⟩
      intro hmem
      exact ((unicos_mem rest (a :: vistos) a).mp hmem).2 (List.mem_cons_self a vistos)

theorem duplicados_mem : ∀ (l vistos : List String) (c : String),
    c ∈ valoresDuplicados vistos l ↔ ((c ∈ vistos ∧ c ∈ l) ∨ 2 ≤ l.count c) := by
  intro l
  induction l with
  | nil => intro vistos c; simp [valoresDuplicados]
  | cons a rest ih =>
    intro vistos c
    have hmemc : (c ∈ rest) ↔ 0 < rest.count c := List.count_pos_iff.symm
    by_cases ha : a ∈ vistos
    · rw [show valoresDuplicados vistos (a :: rest)
          = a :: valoresDuplicados vistos rest from by simp [valoresDuplicados, ha]]
      rw [List.mem_cons, ih vistos c, List.mem_cons, List.count_cons]
      by_cases hca : c = a
      · subst hca
        simp [ha]
      · have hb : (a == c) = false := beq_eq_false_iff_ne.mpr (fun h => hca h.symm)
        simp [hca, hb]
    · rw [show valoresDuplicados vistos (a :: rest)
          = valoresDuplicados (a :: vistos) rest from by simp [valoresDuplicados, ha]]
      rw [ih (a :: vistos) c, List.mem_cons, List.mem_cons, List.count_cons]
      by_cases hca : c = a
      · subst hca
        rw [show (c == c) = true from beq_self_eq_true c]
        simp only [if_true]
        rw [hmemc, iff_false_intro ha]
        simp only [eq_self_iff_true, true_or, false_and, false_or, and_true, true_and, or_false]
        omega
      · have hb : (a == c) = false := beq_eq_false_iff_ne.mpr (fun h => hca h.symm)
        simp [hca, hb]

theorem dupsList_count (ls : List String) (c : String) :
    c ∈ listaDuplicados ls ↔ 2 ≤ ls.count c := by
  unfold listaDuplicados
  rw [unicos_mem, duplicados_mem]
  simp

theorem dupsList_sub (ls : List String) : ∀ c ∈ listaDuplicados ls, c ∈ ls := by
  intro c hc
  have h2 := (dupsList_count ls c).mp hc
  exact List.count_pos_iff.mp (by omega)

/-- Once every duplicated label is in `D`, the partial form is the full
closed form. -/
theorem parcial_cerrada (ls : List String) (D : List String)
    (hD : ∀ c, 2 ≤ ls.count c → c ∈ D) :
    ∀ (rest prev : List String), ls = prev ++ rest →
      parcialGo D prev rest = formaCerradaGo prev rest := by
  intro rest
  induction rest with
  | nil => intro prev _; rfl
  | cons c rest ih =>
    intro prev hsplit
    simp only [parcialGo, formaCerradaGo]
    have htail := ih (prev ++ [c]) (by rw [hsplit, List.append_assoc]; rfl)
    by_cases hc : c ∈ D
    · rw [if_pos hc, htail]
    · rw [if_neg hc, htail]
      have hcount : ls.count c = prev.count c + (c :: rest).count c := by
        rw [hsplit, List.count_append]
      have h1 : ls.count c ≤ 1 := by
        by_contra hgt
        exact hc (hD c (by omega))
      have h2 : 1 ≤ (c :: rest).count c := by
        simp [List.count_cons]
      have h0 : prev.count c = 0 := by omega
      rw [show valorCf prev c = c from by simp [valorCf, h0]]

/-- The dashboard's duplicate-index disambiguation equals the closed
form on interference-free label lists. -/
theorem pandas_cerrada (ls : List String) (hgood : buenasEtiquetas ls = true) :
    columnasPandas ls = formaCerrada ls := by
  unfold columnasPandas
  calc (listaDuplicados ls).foldl renombrarDup ls
      = (listaDuplicados ls).foldl renombrarDup (parcialGo [] [] ls) := by
        rw [parcial_vacio]
    _ = parcialGo (listaDuplicados ls ++ []) [] ls :=
        foldl_renombra ls hgood (listaDuplicados ls) [] (unicos_nodup _ [])
          (dupsList_sub ls) (fun d _ => List.not_mem_nil d)
    _ = formaCerrada ls := by
        rw [List.append_nil]
        exact parcial_cerrada ls (listaDuplicados ls)
          (fun c h => (dupsList_count ls c).mpr h) ls [] rfl

/-- Claim C10, counterexample: the two implementations disagree on the
label sequence `["A","A","A_1","A_1"]` of a one-row table — the
downloader produces `["A","A_1","A_1","A_1_1"]` (its renamed `A_1`
collides with the original `A_1` column), the dashboard produces
`["A","A_1","A_1_1","A_1_2"]` (its second pass counts the first pass's
rename as an occurrence). -/
theorem C10_counterexample :
    desambiguar_columnas dfColision ≠ normalizar_columnas_duplicadas dfColision := by
  decide

/-- Claim C10, amended: on every table with at least one row whose
column labels contain no label of the suffixed form
`other-label ++ "_" ++ k` (so the rename passes cannot interfere — the
condition `buenasEtiquetas`), the downloader's counter-based
disambiguation and the dashboard's duplicate-index disambiguation
produce exactly the same frame; without that proviso they diverge
(`C10_counterexample`). -/
theorem C10_equivalencia (df : DataFrame) (h1 : df.rows ≠ [])
    (h2 : buenasEtiquetas df.cols = true) :
    desambiguar_columnas df = normalizar_columnas_duplicadas df := by
  obtain ⟨cols, rows⟩ := df
  simp only at h1 h2
  have hpc : columnasPandas cols = formaCerrada cols := pandas_cerrada cols h2
  have hnc : nuevasColumnas cols = formaCerrada cols := nuevas_eq_cerrada cols
  have hre : rows.isEmpty = false := by
    rcases rows with _ | _
    · exact absurd rfl h1
    · rfl
  rcases hcols : cols with _ | ⟨c0, cs⟩
  · have hv : (DataFrame.mk [] rows).vacio = true := by simp [DataFrame.vacio]
    rw [show desambiguar_columnas (DataFrame.mk [] rows) = DataFrame.mk [] rows from by
      simp [desambiguar_columnas, hv]]
    rw [show normalizar_columnas_duplicadas (DataFrame.mk [] rows)
        = DataFrame.mk (columnasPandas []) rows from rfl]
    rw [show columnasPandas [] = [] from rfl]
  · rw [← hcols]
    have hv : (DataFrame.mk cols rows).vacio = false := by
      simp [DataFrame.vacio, hre, hcols]
    rw [show normalizar_columnas_duplicadas (DataFrame.mk cols rows)
        = DataFrame.mk (columnasPandas cols) rows from rfl]
    rw [hpc, ← hnc]
    by_cases he : (nuevasColumnas cols == cols) = true
    · rw [show desambiguar_columnas (DataFrame.mk cols rows) = DataFrame.mk cols rows from by
        simp [desambiguar_columnas, hv, he]]
      rw [eq_of_beq he]
    · rw [show desambiguar_columnas (DataFrame.mk cols rows)
          = DataFrame.mk (nuevasColumnas cols) rows from by
        simp [desambiguar_columnas, hv]
        intro hc
        exact absurd (show (nuevasColumnas cols == cols) = true by
          rw [hc]; exact beq_self_eq_true cols) he]

/-- Witness for `C10_equivalencia` on a concrete one-row frame with
duplicate (but non-interfering) labels. -/
theorem C10_equivalencia_witness :
    (dfEjemplo.rows ≠ [] ∧ buenasEtiquetas dfEjemplo.cols = true) ∧
    desambiguar_columnas dfEjemplo = normalizar_columnas_duplicadas dfEjemplo :=
  ⟨⟨by decide, by decide⟩, C10_equivalencia dfEjemplo (by decide) (by decide)⟩

end Genomma
